import Mathlib

/-!
# Verification of the mongo service layer (grisera-core-mongo)

Shallow embedding of the five service files:
`mongo_service/service_mixins.py`, `scenario/scenario_service_mongodb.py`,
`activity_execution/activity_execution_service_mongodb.py`,
`measure/measure_service_mongodb.py`, `dataset/dataset_service_mongodb.py`.

Conventions of the embedding:
* Python dict-mutating service methods become pure functions returning the
  updated record / database.
* Document identifiers are `Nat` (the ObjectId round-trips in the source are
  identity on already-canonical ids).
* `depth` is `Int`, as the Python code freely passes `depth - 1` below zero.
* Collaborator services that live in this repository but outside the five
  files (activity, arrangement, experiment, participation, measure-name,
  time-series services and the mongo gateway) are either injected as function
  parameters — mirroring the dependency injection of the source — or modelled
  from the spec where a concrete instantiation is needed; such definitions
  carry a `Modelled from the spec:` doc comment.
* Storage writes are recorded in an explicit operation log (`WOp`), so that
  "performs no write" claims are statements about the log.
-/

/-- The `Collections` constants of `mongo_service/collection_mapping.py`,
which the source uses both as collection names and as traversal `source`
tags; `empty` stands for the Python default `source=""`. -/
inductive Source where
  | empty
  | activity
  | activityExecution
  | arrangement
  | experiment
  | participation
  | scenario
  | measure
  | measureName
  | timeSeries
  | dataset
deriving DecidableEq, Repr

/-- The `NotFoundByIdModel` sentinel of the grisera models (the error-message
payload is elided; the sentinel's identity is what the services branch on,
via `type(x) is NotFoundByIdModel`). -/
structure NotFoundByIdModel where
  id : Option Nat := none
deriving DecidableEq, Repr

/-- Result of a get-style service call: either the fetched record or the
`NotFoundByIdModel` sentinel. -/
inductive GetResult (M : Type) where
  | found (d : M)
  | notFound (nf : NotFoundByIdModel)
deriving DecidableEq, Repr

/-- `type(r) is not NotFoundByIdModel` — the existence test the services use. -/
def isFound {M : Type} : GetResult M → Bool
  | .found _ => true
  | .notFound _ => false

/-- An activity-execution document as stored (embedded inside its owning
activity document's `activity_executions` array); additional properties are
elided as no claim touches them. -/
structure AEDoc where
  id : Nat
  activity_id : Option Nat
  arrangement_id : Option Nat
deriving DecidableEq, Repr

/-- An activity document: owns the embedded array of activity executions. -/
structure ActivityDoc where
  id : Nat
  activity_executions : List AEDoc
deriving DecidableEq, Repr

/-- An arrangement document (only its existence matters to the claims). -/
structure ArrangementDoc where
  id : Nat
deriving DecidableEq, Repr

/-- An experiment document (only its existence matters to the claims). -/
structure ExperimentDoc where
  id : Nat
deriving DecidableEq, Repr

/-- A scenario document as stored: `experiment_id` plus the ordered sequence
of activity-execution ids.  The elements are `Option Nat` because
`save_scenario` stores `ae.id` of each save result, which is `None` when the
embedded save returned an error output (claim C10). -/
structure ScenDoc where
  id : Nat
  experiment_id : Option Nat
  activity_executions : List (Option Nat)
deriving DecidableEq, Repr

/-- A measure document (scalar properties elided). -/
structure MeasureDoc where
  id : Nat
  measure_name_id : Option Nat
deriving DecidableEq, Repr

/-- A measure-name document (only its existence matters). -/
structure MeasureNameDoc where
  id : Nat
deriving DecidableEq, Repr

/-- The document store: one collection per entity kind plus the id counter of
the gateway (mongo assigns fresh ids on create). -/
structure DB where
  activities : List ActivityDoc := []
  arrangements : List ArrangementDoc := []
  experiments : List ExperimentDoc := []
  scenarios : List ScenDoc := []
  measures : List MeasureDoc := []
  measureNames : List MeasureNameDoc := []
  nextId : Nat := 100
deriving DecidableEq, Repr

/-- Storage-write operations, logged by the mutating service functions. -/
inductive WOp where
  | createDocument (coll : Source)
  | updateDocument (coll : Source) (id : Nat)
  | deleteDocument
  | addActivityExecution (activityId : Option Nat)
  | updateActivityExecutionDoc (id : Nat)
deriving DecidableEq, Repr

/-! ## Measure service expansion (`measure/measure_service_mongodb.py`)

The time-series and measure-name services are injected as parameters, as in
the source (`self.time_series_service`, `self.measure_name_service`). -/

/-- The measure record during expansion: the stored fields plus the keys the
expansion helpers may add (`none` = key absent from the Python dict). -/
structure MeasureRec (τ ν : Type) where
  id : Nat
  measure_name_id : Option Nat
  time_series : Option τ := none
  measure_name : Option ν := none
deriving DecidableEq, Repr

/-- `MeasureServiceMongoDB._add_related_time_series`. -/
def add_related_time_series {τ ν : Type}
    (tsGetMultiple : Nat → Int → Source → τ)
    (m : MeasureRec τ ν) (depth : Int) (source : Source) : MeasureRec τ ν :=
  if source ≠ Source.timeSeries then
    let ts := tsGetMultiple m.id (depth - 1) Source.measure
    { m with time_series := some ts }
  else m

/-- `MeasureServiceMongoDB._add_related_measure_name`. -/
def add_related_measure_name {τ ν : Type}
    (mnGetSingleDict : Nat → Int → Source → ν)
    (m : MeasureRec τ ν) (depth : Int) (source : Source) : MeasureRec τ ν :=
  if h : source ≠ Source.measureName ∧ m.measure_name_id.isSome then
    let mn := mnGetSingleDict (m.measure_name_id.get h.2) (depth - 1) Source.measure
    { m with measure_name := some mn }
  else m

/-- `MeasureServiceMongoDB._add_related_documents`: the measure expansion
hook — time series first, then measure name, both only when `depth > 0`. -/
def measure_add_related_documents {τ ν : Type}
    (tsGetMultiple : Nat → Int → Source → τ)
    (mnGetSingleDict : Nat → Int → Source → ν)
    (m : MeasureRec τ ν) (depth : Int) (source : Source) : MeasureRec τ ν :=
  if depth > 0 then
    add_related_measure_name mnGetSingleDict
      (add_related_time_series tsGetMultiple m depth source) depth source
  else m

/-! ## Activity-execution service expansion
(`activity_execution/activity_execution_service_mongodb.py`)

The arrangement, scenario and participation services are injected as
parameters, mirroring the source's `self.arrangement_service`,
`self.scenario_service`, `self.participation_service`. -/

/-- The owning-activity context passed into the activity-execution expansion
hook: the projected activity document with its `activity_executions` key
deleted (the source keeps only the projected scalar fields). -/
structure ActivityCtx where
  id : Nat
deriving DecidableEq, Repr

/-- The activity-execution record during expansion: stored fields plus the
keys the expansion helpers may add (`none` = key absent). -/
structure AERec (α ε π γ : Type) where
  id : Nat
  activity_id : Option Nat
  arrangement_id : Option Nat
  arrangement : Option α := none
  experiments : Option (List ε) := none
  participations : Option π := none
  activity : Option γ := none
deriving DecidableEq, Repr

/-- `ActivityExecutionServiceMongoDB._add_related_arrangement`. -/
def add_related_arrangement {α ε π γ : Type}
    (arrGetSingleDict : Nat → Int → Source → α)
    (ae : AERec α ε π γ) (depth : Int) (source : Source) : AERec α ε π γ :=
  if h : source ≠ Source.arrangement ∧ ae.arrangement_id.isSome then
    let arr := arrGetSingleDict (ae.arrangement_id.get h.2) (depth - 1)
      Source.activityExecution
    { ae with arrangement := some arr }
  else ae

/-- `ActivityExecutionServiceMongoDB._add_related_experiments`: fetches the
scenarios containing this execution (`multiple=True`, at the same `depth`)
and keeps their `experiment` attributes; `none` from the injected service
stands for the `NotFoundByIdModel` early return. -/
def add_related_experiments {α ε π γ σ : Type}
    (scenGetByActivityExecution : Nat → Int → Option (List σ))
    (experimentOf : σ → ε)
    (ae : AERec α ε π γ) (depth : Int) (source : Source) : AERec α ε π γ :=
  if depth ≤ 0 ∨ source = Source.experiment then ae
  else
    match scenGetByActivityExecution ae.id depth with
    | none => ae
    | some scens => { ae with experiments := some (scens.map experimentOf) }

/-- `ActivityExecutionServiceMongoDB._add_related_participations`. -/
def add_related_participations {α ε π γ : Type}
    (partGetMultiple : Nat → Int → Source → π)
    (ae : AERec α ε π γ) (depth : Int) (source : Source) : AERec α ε π γ :=
  if source ≠ Source.participation then
    let ps := partGetMultiple ae.id (depth - 1) Source.activityExecution
    { ae with participations := some ps }
  else ae

/-- `ActivityExecutionServiceMongoDB._add_activity`: attaches the
already-fetched owning activity (never re-fetches). -/
def add_activity {α ε π γ : Type}
    (ae : AERec α ε π γ) (_depth : Int) (source : Source) (activity : γ) :
    AERec α ε π γ :=
  if source ≠ Source.activity then { ae with activity := some activity } else ae

/-- `ActivityExecutionServiceMongoDB._add_related_documents`: the
activity-execution expansion hook — arrangement, experiments,
participations, then the owning activity, all only when `depth > 0`. -/
def ae_add_related_documents {α ε π γ σ : Type}
    (arrGetSingleDict : Nat → Int → Source → α)
    (scenGetByActivityExecution : Nat → Int → Option (List σ))
    (experimentOf : σ → ε)
    (partGetMultiple : Nat → Int → Source → π)
    (ae : AERec α ε π γ) (depth : Int) (source : Source) (activity : γ) :
    AERec α ε π γ :=
  if depth > 0 then
    add_activity
      (add_related_participations partGetMultiple
        (add_related_experiments scenGetByActivityExecution experimentOf
          (add_related_arrangement arrGetSingleDict ae depth source)
          depth source)
        depth source)
      depth source activity
  else ae

/-- `ScenarioServiceMongoDB._add_related_documents`: `pass` in the source. -/
def scenario_add_related_documents (s : ScenDoc) (_depth : Int)
    (_source : Source) : ScenDoc := s

/-- `DatasetServiceMongoDB._add_related_documents`: `pass` in the source. -/
def dataset_add_related_documents {M : Type} (d : M) (_depth : Int)
    (_source : Source) : M := d

/-! ## Modelled collaborator services and storage gateway

These live in this repository outside the five source files; they are
modelled from the spec (§4.1 generic service contract, §6 gateway contract).
Every call this development makes into them passes `depth ≤ 0`, where the
spec's expansion-hook contract ("a no-op whenever depth ≤ 0") makes the
generic get a plain lookup, so the hooks are omitted from these models. -/

/-- Modelled from the spec: `experiment_service.get_experiment` — generic
get-one over the experiment collection, returning the `NotFoundByIdModel`
sentinel for a missing (or null) id. -/
def getExperimentStd (db : DB) (id : Option Nat) (_depth : Int)
    (_source : Source) : GetResult ExperimentDoc :=
  match id with
  | none => .notFound { id := none }
  | some i =>
    match db.experiments.find? (fun e => e.id == i) with
    | some e => .found e
    | none => .notFound { id := some i }

/-- Modelled from the spec: `activity_service.get_activity` — generic get-one
over the activity collection. -/
def getActivityStd (db : DB) (id : Option Nat) : GetResult ActivityDoc :=
  match id with
  | none => .notFound { id := none }
  | some i =>
    match db.activities.find? (fun a => a.id == i) with
    | some a => .found a
    | none => .notFound { id := some i }

/-- Modelled from the spec: `arrangement_service.get_arrangement` — generic
get-one over the arrangement collection. -/
def getArrangementStd (db : DB) (id : Option Nat) : GetResult ArrangementDoc :=
  match id with
  | none => .notFound { id := none }
  | some i =>
    match db.arrangements.find? (fun a => a.id == i) with
    | some a => .found a
    | none => .notFound { id := some i }

/-- Modelled from the spec: `activity_service.add_activity_execution` — the
embedded-array insert; assigns a fresh id and appends the execution document
to the owning activity's `activity_executions` array, returning the created
execution as an output object. -/
def activityAddActivityExecution (db : DB) (aein : AEDoc) :
    AEDoc × DB × List WOp :=
  let newId := db.nextId
  let doc : AEDoc := { aein with id := newId }
  let acts := db.activities.map fun a =>
    if some a.id == aein.activity_id then
      { a with activity_executions := a.activity_executions ++ [doc] }
    else a
  (doc, { db with nextId := newId + 1, activities := acts },
    [WOp.addActivityExecution aein.activity_id])

/-- Modelled from the spec: `activity_service.update_activity_execution` —
replaces the embedded execution addressed by item id inside its owning
activity's array. -/
def activityUpdateActivityExecution (db : DB) (aeId : Nat) (newDoc : AEDoc) :
    DB × List WOp :=
  let acts := db.activities.map fun a =>
    { a with activity_executions :=
        a.activity_executions.map fun e => if e.id == aeId then newDoc else e }
  ({ db with activities := acts }, [WOp.updateActivityExecutionDoc aeId])

/-- Modelled from the spec: `mongo_api_service.get_document` on the scenario
collection — raw lookup by id, `NotFoundByIdModel` when absent. -/
def getScenarioDocStd (db : DB) (id : Nat) : GetResult ScenDoc :=
  match db.scenarios.find? (fun s => s.id == id) with
  | some s => .found s
  | none => .notFound { id := some id }

/-- Modelled from the spec: `mongo_api_service.update_document_with_dict` on
the scenario collection — replaces the document with the given id. -/
def updateScenarioDocStd (db : DB) (id : Nat) (newDoc : ScenDoc) : DB :=
  { db with scenarios := db.scenarios.map fun s => if s.id == id then newDoc else s }

/-- Modelled from the spec: `mongo_api_service.create_document_from_dict` on
the scenario collection — stores the document under a fresh id. -/
def createScenarioDocStd (db : DB) (experimentId : Option Nat)
    (activityExecutionIds : List (Option Nat)) : Nat × DB :=
  let newId := db.nextId
  let doc : ScenDoc := { id := newId, experiment_id := experimentId,
                         activity_executions := activityExecutionIds }
  (newId, { db with nextId := newId + 1, scenarios := db.scenarios ++ [doc] })

/-- Modelled from the spec: `mongo_api_service.get_document` on the measure
collection. -/
def getMeasureDocStd (db : DB) (id : Nat) : GetResult MeasureDoc :=
  match db.measures.find? (fun m => m.id == id) with
  | some m => .found m
  | none => .notFound { id := some id }

/-! ## Generic mixin (`mongo_service/service_mixins.py`)

`GenericMongoServiceMixin`, parameterized over the entity kind's document
getter, expansion hook and gateway writers — the data the mixin obtains from
its subclass (`model_out_class`, `_add_related_documents`) and from the
gateway. -/

/-- `GenericMongoServiceMixin.get_single_dict`: fetch by id, return the
`NotFoundByIdModel` untouched, otherwise apply the expansion hook. -/
def generic_get_single_dict {M : Type}
    (getDocument : DB → Nat → GetResult M)
    (hook : M → Int → Source → M)
    (db : DB) (id : Nat) (depth : Int) (source : Source) : GetResult M :=
  match getDocument db id with
  | .notFound nf => .notFound nf
  | .found d => .found (hook d depth source)

/-- `GenericMongoServiceMixin.get_single`: wraps `get_single_dict`; the parse
into `model_out_class` is the identity in this embedding. -/
def generic_get_single {M : Type}
    (getDocument : DB → Nat → GetResult M)
    (hook : M → Int → Source → M)
    (db : DB) (id : Nat) (depth : Int) (source : Source) : GetResult M :=
  match generic_get_single_dict getDocument hook db id depth source with
  | .notFound nf => .notFound nf
  | .found d => .found d

/-- `GenericMongoServiceMixin.update`: re-fetch; return the sentinel when
missing; otherwise persist the replacement and re-fetch (the date
normalization loop is elided — no date field is modelled). -/
def generic_update {M : Type}
    (getDocument : DB → Nat → GetResult M)
    (hook : M → Int → Source → M)
    (updateDocument : DB → Nat → M → DB × List WOp)
    (db : DB) (id : Nat) (updatedObject : M) : GetResult M × DB × List WOp :=
  match generic_get_single getDocument hook db id 0 Source.empty with
  | .notFound nf => (.notFound nf, db, [])
  | .found _ =>
    let (db1, ops) := updateDocument db id updatedObject
    (generic_get_single getDocument hook db1 id 0 Source.empty, db1, ops)

/-- The source's `existing_document is None` test in
`GenericMongoServiceMixin.delete`: `get_single` returns either the entity or
the `NotFoundByIdModel` sentinel and is never Python `None`, so this test is
constantly false; it is kept to mirror the source's guard. -/
def isPyNone {M : Type} (_r : GetResult M) : Bool := false

/-- `GenericMongoServiceMixin.delete`: re-fetch, then the (dead) `is None`
guard, then the gateway delete of whatever `get_single` returned —
including, for a missing id, the `NotFoundByIdModel` sentinel itself. -/
def generic_delete {M : Type}
    (getDocument : DB → Nat → GetResult M)
    (hook : M → Int → Source → M)
    (deleteDocument : DB → GetResult M → DB × List WOp)
    (db : DB) (id : Nat) : GetResult M × DB × List WOp :=
  let existing := generic_get_single getDocument hook db id 0 Source.empty
  if isPyNone existing then
    (.notFound { id := some id }, db, [])
  else
    let (db1, ops) := deleteDocument db existing
    (existing, db1, ops)

/-! ### Measure instantiation of the mixin -/

/-- The measure expansion hook with its injected services instantiated by
stubs: every read in this development passes `depth ≤ 0`, where the hook
returns its input without consulting either service (proved in the C1
theorem). -/
def measureHookStub (m : MeasureRec Unit Unit) (depth : Int)
    (source : Source) : MeasureRec Unit Unit :=
  measure_add_related_documents (fun _ _ _ => ()) (fun _ _ _ => ()) m depth source

/-- The stored measure document as the expansion record (dict) form. -/
def measureRecOfDoc (m : MeasureDoc) : MeasureRec Unit Unit :=
  { id := m.id, measure_name_id := m.measure_name_id }

/-- `mongo_api_service.get_document` for measures, in record form.
Modelled from the spec (§6 gateway contract). -/
def getMeasureRecStd (db : DB) (id : Nat) : GetResult (MeasureRec Unit Unit) :=
  match getMeasureDocStd db id with
  | .found d => .found (measureRecOfDoc d)
  | .notFound nf => .notFound nf

/-- Modelled from the spec: `mongo_api_service.delete_document` for measures.
The mixin's `delete` passes it whatever `get_single` returned; when that is
the `NotFoundByIdModel` sentinel (see `generic_delete`), the call is still
issued — we record it and, as no stored measure matches, leave storage
unchanged. -/
def measureDeleteDocumentStd (db : DB) (r : GetResult (MeasureRec Unit Unit)) :
    DB × List WOp :=
  match r with
  | .found d =>
    ({ db with measures := db.measures.filter (fun m => m.id ≠ d.id) },
      [WOp.deleteDocument])
  | .notFound _ => (db, [WOp.deleteDocument])

/-- `MeasureServiceMongoDB.delete_measure` = the mixin `delete` instantiated
for measures. -/
def delete_measure (db : DB) (id : Nat) :
    GetResult (MeasureRec Unit Unit) × DB × List WOp :=
  generic_delete getMeasureRecStd measureHookStub measureDeleteDocumentStd db id

/-! ## Activity-execution service operations
(`activity_execution/activity_execution_service_mongodb.py`) -/

/-- Modelled from the spec (§4.2): `activity_service.get_multiple` under the
elem-match query and projection that `get_single_dict` builds — the
activities containing an execution with the given id, each with
`activity_executions` projected to the first matching element.  Every call
here passes `depth - 1 ≤ -1`, where the activity expansion hook is a no-op
by the §4.1 contract, so the hook is omitted. -/
def activityGetMultipleByAEIdStd (db : DB) (aeId : Nat) : List ActivityDoc :=
  db.activities.filterMap fun a =>
    match a.activity_executions.find? (fun e => e.id == aeId) with
    | some e => some { a with activity_executions := [e] }
    | none => none

/-- `ActivityExecutionServiceMongoDB.get_single_dict`: query the activity
collection for the embedding activity, lift the matched embedded execution
out of its parent, drop the parent's `activity_executions` key, and apply the
expansion hook with the parent as activity context. -/
def ae_get_single_dict {α ε π σ : Type}
    (arrGetSingleDict : Nat → Int → Source → α)
    (scenGetByActivityExecution : Nat → Int → Option (List σ))
    (experimentOf : σ → ε)
    (partGetMultiple : Nat → Int → Source → π)
    (db : DB) (id : Nat) (depth : Int) (source : Source) :
    GetResult (AERec α ε π ActivityCtx) :=
  match activityGetMultipleByAEIdStd db id with
  | [] => .notFound { id := some id }
  | relatedActivity :: _ =>
    match relatedActivity.activity_executions with
    | [] => .notFound { id := some id }
    | aeDoc :: _ =>
      let aeRecord : AERec α ε π ActivityCtx :=
        { id := aeDoc.id, activity_id := aeDoc.activity_id,
          arrangement_id := aeDoc.arrangement_id }
      let activityCtx : ActivityCtx := { id := relatedActivity.id }
      .found (ae_add_related_documents arrGetSingleDict
        scenGetByActivityExecution experimentOf partGetMultiple
        aeRecord depth source activityCtx)

/-- The activity-execution record type under the stub instantiation used for
the `depth ≤ 0` reads of this development (where the hook consults none of
the injected services). -/
abbrev AERecStd := AERec Unit Unit Unit ActivityCtx

/-- `ActivityExecutionServiceMongoDB.get_activity_execution` (= `get_single`
= `get_single_dict` plus the identity parse), with the injected services
instantiated by stubs — sound for the `depth ≤ 0` calls made here, where the
hook is a no-op (C1 theorem).  A `none` id models Python
`ObjectId(None)`, which denotes a fresh ObjectId matching nothing, hence the
sentinel. -/
def aeGetStd (db : DB) (id : Option Nat) (depth : Int) (source : Source) :
    GetResult AERecStd :=
  match id with
  | none => .notFound { id := none }
  | some i =>
    ae_get_single_dict (fun _ _ _ => ()) (fun _ _ => none) (fun u => u)
      (fun _ _ _ => ()) db i depth source

/-- `ActivityExecutionIn`: the relation fields of the input model (scalar
properties elided). -/
structure ActivityExecutionIn where
  activity_id : Option Nat
  arrangement_id : Option Nat
deriving DecidableEq, Repr

/-- `ActivityExecutionOut` as returned by `save_activity_execution`: the
error output carries `errors` and a null `id`. -/
structure ActivityExecutionOutM where
  id : Option Nat := none
  errors : Option String := none
deriving DecidableEq, Repr

/-- `ActivityExecutionServiceMongoDB.save_activity_execution`: validate the
`activity_id` and `arrangement_id` targets, then delegate to the activity
service's embedded-array insert. -/
def save_activity_execution (db : DB) (aein : ActivityExecutionIn) :
    ActivityExecutionOutM × DB × List WOp :=
  let relatedActivity := getActivityStd db aein.activity_id
  if aein.activity_id.isSome ∧ isFound relatedActivity = false then
    ({ errors := some "given activity does not exist" }, db, [])
  else
    let relatedArrangement := getArrangementStd db aein.arrangement_id
    if aein.arrangement_id.isSome ∧ isFound relatedArrangement = false then
      ({ errors := some "given arrangement does not exist" }, db, [])
    else
      let (doc, db1, ops) := activityAddActivityExecution db
        { id := 0, activity_id := aein.activity_id,
          arrangement_id := aein.arrangement_id }
      ({ id := some doc.id }, db1, ops)

/-- Outcome of `update_activity_execution`: `mergedOntoSentinel` marks the
path where `get_activity_execution` returned the `NotFoundByIdModel` and the
source — having no NotFound check — feeds it into the field merge (where, in
Python, the pydantic assignment is rejected); the method never returns the
sentinel in the §4.1 way. -/
inductive AEPropUpdateResult where
  | mergedOntoSentinel (nf : NotFoundByIdModel)
  | updated (d : AEDoc)
deriving DecidableEq, Repr

/-- `ActivityExecutionServiceMongoDB.update_activity_execution`: re-fetch,
merge the property patch (payload elided) and write through the activity
service — with no existence check between the fetch and the merge. -/
def update_activity_execution (db : DB) (aeId : Nat) :
    AEPropUpdateResult × DB × List WOp :=
  match aeGetStd db (some aeId) 0 Source.empty with
  | .found existing =>
    let merged : AEDoc := { id := existing.id, activity_id := existing.activity_id,
                            arrangement_id := existing.arrangement_id }
    let (db1, ops) := activityUpdateActivityExecution db aeId merged
    (.updated merged, db1, ops)
  | .notFound nf => (.mergedOntoSentinel nf, db, [])

/-- `ActivityExecutionRelationIn`: the relation patch. -/
structure ActivityExecutionRelationIn where
  activity_id : Option Nat
  arrangement_id : Option Nat
deriving DecidableEq, Repr

/-- Outcome of `update_activity_execution_relationships`. -/
inductive AERelUpdateResult where
  | notFoundResult (nf : NotFoundByIdModel)
  | errorOut (msg : String)
  | updated (d : AEDoc)
deriving DecidableEq, Repr

/-- `ActivityExecutionServiceMongoDB.update_activity_execution_relationships`:
re-fetch with a NotFound check, re-validate the new `activity_id` (with no
null guard) and the new `arrangement_id` (only when supplied), then merge and
write through the activity service. -/
def update_activity_execution_relationships (db : DB) (aeId : Nat)
    (patch : ActivityExecutionRelationIn) : AERelUpdateResult × DB × List WOp :=
  match aeGetStd db (some aeId) 0 Source.empty with
  | .notFound nf => (.notFoundResult nf, db, [])
  | .found existing =>
    let relatedActivity := getActivityStd db patch.activity_id
    if isFound relatedActivity = false then
      (.errorOut "given activity does not exist", db, [])
    else
      let relatedArrangement := getArrangementStd db patch.arrangement_id
      if patch.arrangement_id.isSome ∧ isFound relatedArrangement = false then
        (.errorOut "given arrangement does not exist", db, [])
      else
        let merged : AEDoc := { id := existing.id, activity_id := patch.activity_id,
                                arrangement_id := patch.arrangement_id }
        let (db1, ops) := activityUpdateActivityExecution db aeId merged
        (.updated merged, db1, ops)

/-! ## Scenario service (`scenario/scenario_service_mongodb.py`) -/

/-- Python `list.index` (the absent case — where Python raises — is
unreachable at the source's call site, as the list was found by membership;
`findIdx` then returns the length). -/
def pyIndex {A : Type} [BEq A] (l : List A) (x : A) : Nat :=
  l.findIdx (fun y => y == x)

/-- Python `list.insert`: clamps the position into the list like Python. -/
def pyInsert {A : Type} (l : List A) (i : Nat) (x : A) : List A :=
  l.take i ++ x :: l.drop i

/-- A hydrated scenario (`_change_ids_to_objects` output): the id sequence
replaced by fetched objects and the `experiment` key attached; both hold
whatever the fetch returned, including a possible sentinel. -/
structure ScenHyd (E X : Type) where
  id : Nat
  experiment_id : Option Nat
  activity_executions : List (GetResult X)
  experiment : GetResult E
deriving DecidableEq, Repr

/-- `ScenarioServiceMongoDB._change_ids_to_objects` (composing
`_change_ae_ids_to_objects` and `_change_experiment_id_to_object`): clamps
the child depth at `max(depth - 1, 0)` and then — at every depth, including
zero — fetches each activity execution (source tagged `activity_execution`)
and the experiment (source tagged `experiment`). -/
def change_ids_to_objects {E X : Type}
    (expGet : DB → Option Nat → Int → Source → GetResult E)
    (aeGet : DB → Option Nat → Int → Source → GetResult X)
    (db : DB) (s : ScenDoc) (depth : Int) : ScenHyd E X :=
  let d := max (depth - 1) 0
  { id := s.id, experiment_id := s.experiment_id,
    activity_executions :=
      s.activity_executions.map (fun i => aeGet db i d Source.activityExecution),
    experiment := expGet db s.experiment_id d Source.experiment }

/-- The hydrated-scenario type under the injected services of the source
(`self.experiment_service`, `self.activity_execution_service`). -/
abbrev ScenHydStd := ScenHyd ExperimentDoc AERecStd

/-- `_change_ids_to_objects` with the source's injected services. -/
def changeIdsToObjectsStd (db : DB) (s : ScenDoc) (depth : Int) : ScenHydStd :=
  change_ids_to_objects getExperimentStd aeGetStd db s depth

/-- `ScenarioServiceMongoDB.get_scenario_by_activity_execution`
(`multiple=False`, the form every source call site in these claims uses):
query the scenario collection for membership of the execution id in the
`activity_executions` array, then hydrate the first hit. -/
def get_scenario_by_activity_execution (db : DB) (aeId : Nat) (depth : Int) :
    GetResult ScenHydStd :=
  match db.scenarios.filter (fun s => s.activity_executions.contains (some aeId)) with
  | [] => .notFound { id := some aeId }
  | s :: _ => .found (changeIdsToObjectsStd db s depth)

/-- `ScenarioServiceMongoDB.get_scenario_by_experiment`: query the scenario
collection by `experiment_id`, then hydrate the first hit. -/
def get_scenario_by_experiment (db : DB) (expId : Nat) (depth : Int) :
    GetResult ScenHydStd :=
  match db.scenarios.filter (fun s => s.experiment_id == some expId) with
  | [] => .notFound { id := some expId }
  | s :: _ => .found (changeIdsToObjectsStd db s depth)

/-- The second component `get_scenario_by_element_id` returns: the element
`previous_id` resolved to (the source only inspects whether its type is
`ExperimentOut`). -/
inductive RelatedElem where
  | experimentElem (e : ExperimentDoc)
  | activityExecutionElem (x : AERecStd)
deriving DecidableEq, Repr

/-- `ScenarioServiceMongoDB.get_scenario_by_element_id`: resolve
`element_id` first as an experiment, then as an activity execution; the
winning resolution picks the scenario query; neither resolving yields the
`NotFoundByIdModel` paired with Python `None`. -/
def get_scenario_by_element_id (db : DB) (elementId : Nat) (depth : Int) :
    GetResult ScenHydStd × Option RelatedElem :=
  match getExperimentStd db (some elementId) 0 Source.empty with
  | .found e =>
    (get_scenario_by_experiment db elementId depth, some (.experimentElem e))
  | .notFound _ =>
    match aeGetStd db (some elementId) 0 Source.empty with
    | .found x =>
      (get_scenario_by_activity_execution db elementId depth,
        some (.activityExecutionElem x))
    | .notFound _ => (.notFound { id := some elementId }, none)

/-- `ScenarioServiceMongoDB._put_activity_execution_after_element`: resolve
`previous_id`, re-fetch the scenario in raw id-list form, insert the new id
at 0 (experiment resolution) or after `previous_id` (execution resolution),
and persist; a failed resolution returns the sentinel with no write. -/
def put_activity_execution_after_element (db : DB) (previousId : Nat)
    (activityExecutionId : Option Nat) :
    Option NotFoundByIdModel × DB × List WOp :=
  let resolved := get_scenario_by_element_id db previousId 0
  match resolved.1 with
  | .notFound nf => (some nf, db, [])
  | .found sc =>
    match getScenarioDocStd db sc.id with
    | .notFound nf => (some nf, db, [])
    | .found scenarioDict =>
      let isFromExperiment := match resolved.2 with
        | some (.experimentElem _) => true
        | _ => false
      let newIndex := if isFromExperiment then 0
        else pyIndex scenarioDict.activity_executions (some previousId) + 1
      let newList := pyInsert scenarioDict.activity_executions newIndex
        activityExecutionId
      let db1 := updateScenarioDocStd db sc.id
        { scenarioDict with activity_executions := newList }
      (none, db1, [WOp.updateDocument Source.scenario sc.id])

/-- Result of the scenario service's `delete_activity_execution`. -/
inductive ScenarioDeleteResult where
  | scenarioNotFound (nf : NotFoundByIdModel)
  | aeResult (r : GetResult AERecStd)
deriving DecidableEq, Repr

/-- `ScenarioServiceMongoDB.delete_activity_execution`: locate the scenario
containing the execution, remove the first occurrence of its id from the raw
id list, persist, and return the (now detached) execution fetched from the
updated store. -/
def delete_activity_execution (db : DB) (aeId : Nat) :
    ScenarioDeleteResult × DB × List WOp :=
  match get_scenario_by_activity_execution db aeId 0 with
  | .notFound nf => (.scenarioNotFound nf, db, [])
  | .found sc =>
    match getScenarioDocStd db sc.id with
    | .notFound nf => (.scenarioNotFound nf, db, [])
    | .found scenarioDict =>
      let newList := scenarioDict.activity_executions.erase (some aeId)
      let db1 := updateScenarioDocStd db sc.id
        { scenarioDict with activity_executions := newList }
      (.aeResult (aeGetStd db1 (some aeId) 0 Source.empty), db1,
        [WOp.updateDocument Source.scenario sc.id])

/-- `OrderChangeIn`. -/
structure OrderChangeIn where
  activity_execution_id : Nat
  previous_id : Nat
deriving DecidableEq, Repr

/-- `OrderChangeOut`: the error output carries `errors`. -/
structure OrderChangeOut where
  errors : Option String := none
deriving DecidableEq, Repr

/-- `ScenarioServiceMongoDB.change_order`: reject a self-referential request,
otherwise remove then insert-after, ignoring the outcome of both steps. -/
def change_order (db : DB) (oc : OrderChangeIn) :
    OrderChangeOut × DB × List WOp :=
  if oc.activity_execution_id == oc.previous_id then
    ({ errors := some "Given indexes for order change are identical" }, db, [])
  else
    let step1 := delete_activity_execution db oc.activity_execution_id
    let db1 := step1.2.1
    let step2 := put_activity_execution_after_element db1 oc.previous_id
      (some oc.activity_execution_id)
    ({ errors := none }, step2.2.1, step1.2.2 ++ step2.2.2)

/-- `ScenarioServiceMongoDB.add_activity_execution`: save the execution, then
insert its id after `previous_id`; the save result is returned regardless of
whether the insert resolved. -/
def add_activity_execution (db : DB) (previousId : Nat)
    (aein : ActivityExecutionIn) : ActivityExecutionOutM × DB × List WOp :=
  let (out, db1, ops1) := save_activity_execution db aein
  let step2 := put_activity_execution_after_element db1 previousId out.id
  (out, step2.2.1, ops1 ++ step2.2.2)

/-- `ScenarioIn`: the experiment reference plus the embedded
activity-execution payloads. -/
structure ScenarioIn where
  experiment_id : Option Nat
  activity_executions : List ActivityExecutionIn
deriving DecidableEq, Repr

/-- Result of `save_scenario`: the error output, or the `ScenarioOut` built
from the save results of the embedded executions (the created document's id
is not part of the returned object in the source). -/
inductive SaveScenarioResult where
  | errorOut (msg : String)
  | saved (experiment_id : Option Nat)
      (activity_executions : List ActivityExecutionOutM)
deriving DecidableEq, Repr

/-- `ScenarioServiceMongoDB.save_scenario`: validate `experiment_id` when
given, save each embedded execution through the activity-execution service,
then persist the scenario with only the resulting id sequence (`ae.id` of
each save result — `None` when that save returned an error output). -/
def save_scenario (db : DB) (scn : ScenarioIn) :
    SaveScenarioResult × DB × List WOp :=
  let relatedExperiment := getExperimentStd db scn.experiment_id 0 Source.empty
  if scn.experiment_id.isSome ∧ isFound relatedExperiment = false then
    (.errorOut "given experiment does not exist", db, [])
  else
    let step := fun (acc : List ActivityExecutionOutM × DB × List WOp)
        (aein : ActivityExecutionIn) =>
      let (out, db2, ops2) := save_activity_execution acc.2.1 aein
      (acc.1 ++ [out], db2, acc.2.2 ++ ops2)
    let folded := scn.activity_executions.foldl step ([], db, [])
    let ids := folded.1.map (fun o => o.id)
    let created := createScenarioDocStd folded.2.1 scn.experiment_id ids
    (.saved scn.experiment_id folded.1, created.2,
      folded.2.2 ++ [WOp.createDocument Source.scenario])

/-! ## Concrete fixture for witnesses and counterexamples -/

/-- A small concrete store: one activity owning executions 2, 3, 4; one
arrangement; experiment 1; one scenario (id 20) over experiment 1 with the
ordered sequence [2, 3, 4]; one measure. -/
def dbFix : DB :=
  { activities := [{ id := 10, activity_executions :=
      [ { id := 2, activity_id := some 10, arrangement_id := none },
        { id := 3, activity_id := some 10, arrangement_id := none },
        { id := 4, activity_id := some 10, arrangement_id := none } ] }],
    arrangements := [{ id := 30 }],
    experiments := [{ id := 1 }],
    scenarios := [{ id := 20, experiment_id := some 1,
                    activity_executions := [some 2, some 3, some 4] }],
    measures := [{ id := 40, measure_name_id := none }],
    measureNames := [] }

/-! ## Helper lemmas -/

theorem isFound_eq_true_iff {M : Type} (r : GetResult M) :
    isFound r = true ↔ ∃ d, r = .found d := by
  cases r <;> simp [isFound]

theorem isFound_eq_false_iff {M : Type} (r : GetResult M) :
    isFound r = false ↔ ∃ nf, r = .notFound nf := by
  cases r <;> simp [isFound]

theorem pyInsert_zero {A : Type} (l : List A) (x : A) :
    pyInsert l 0 x = x :: l := rfl

theorem getExperimentStd_update_scenarios (db : DB) (i : Nat) (d : ScenDoc)
    (id : Option Nat) (depth : Int) (s : Source) :
    getExperimentStd (updateScenarioDocStd db i d) id depth s =
      getExperimentStd db id depth s := rfl

theorem aeGetStd_update_scenarios (db : DB) (i : Nat) (d : ScenDoc)
    (id : Option Nat) (depth : Int) (s : Source) :
    aeGetStd (updateScenarioDocStd db i d) id depth s =
      aeGetStd db id depth s := rfl

theorem add_related_arrangement_sourceMatch {α ε π γ : Type}
    (g : Nat → Int → Source → α) (ae : AERec α ε π γ) (d : Int) :
    add_related_arrangement g ae d Source.arrangement = ae := by
  unfold add_related_arrangement
  rw [dif_neg]
  simp

theorem add_related_arrangement_preserves {α ε π γ : Type}
    (g : Nat → Int → Source → α) (ae : AERec α ε π γ) (d : Int) (s : Source) :
    (add_related_arrangement g ae d s).activity = ae.activity ∧
    (add_related_arrangement g ae d s).experiments = ae.experiments ∧
    (add_related_arrangement g ae d s).participations = ae.participations := by
  unfold add_related_arrangement
  split <;> exact ⟨rfl, rfl, rfl⟩

theorem add_related_experiments_sourceMatch {α ε π γ σ : Type}
    (g : Nat → Int → Option (List σ)) (f : σ → ε) (ae : AERec α ε π γ)
    (d : Int) :
    add_related_experiments g f ae d Source.experiment = ae := by
  unfold add_related_experiments
  rw [if_pos]
  exact Or.inr rfl

theorem add_related_experiments_preserves {α ε π γ σ : Type}
    (g : Nat → Int → Option (List σ)) (f : σ → ε) (ae : AERec α ε π γ)
    (d : Int) (s : Source) :
    (add_related_experiments g f ae d s).activity = ae.activity ∧
    (add_related_experiments g f ae d s).arrangement = ae.arrangement ∧
    (add_related_experiments g f ae d s).participations = ae.participations := by
  unfold add_related_experiments
  split
  · exact ⟨rfl, rfl, rfl⟩
  · split <;> exact ⟨rfl, rfl, rfl⟩

theorem add_related_participations_sourceMatch {α ε π γ : Type}
    (g : Nat → Int → Source → π) (ae : AERec α ε π γ) (d : Int) :
    add_related_participations g ae d Source.participation = ae := by
  unfold add_related_participations
  rw [if_neg]
  simp

theorem add_related_participations_preserves {α ε π γ : Type}
    (g : Nat → Int → Source → π) (ae : AERec α ε π γ) (d : Int) (s : Source) :
    (add_related_participations g ae d s).activity = ae.activity ∧
    (add_related_participations g ae d s).arrangement = ae.arrangement ∧
    (add_related_participations g ae d s).experiments = ae.experiments := by
  unfold add_related_participations
  split <;> exact ⟨rfl, rfl, rfl⟩

theorem add_activity_sourceMatch {α ε π γ : Type}
    (ae : AERec α ε π γ) (d : Int) (y : γ) :
    add_activity ae d Source.activity y = ae := by
  unfold add_activity
  rw [if_neg]
  simp

theorem add_activity_preserves {α ε π γ : Type}
    (ae : AERec α ε π γ) (d : Int) (s : Source) (y : γ) :
    (add_activity ae d s y).arrangement = ae.arrangement ∧
    (add_activity ae d s y).experiments = ae.experiments ∧
    (add_activity ae d s y).participations = ae.participations := by
  unfold add_activity
  split <;> exact ⟨rfl, rfl, rfl⟩

theorem add_related_time_series_sourceMatch {τ ν : Type}
    (g : Nat → Int → Source → τ) (m : MeasureRec τ ν) (d : Int) :
    add_related_time_series g m d Source.timeSeries = m := by
  unfold add_related_time_series
  rw [if_neg]
  simp

theorem add_related_measure_name_sourceMatch {τ ν : Type}
    (g : Nat → Int → Source → ν) (m : MeasureRec τ ν) (d : Int) :
    add_related_measure_name g m d Source.measureName = m := by
  unfold add_related_measure_name
  rw [dif_neg]
  simp

theorem add_related_time_series_preserves_mn {τ ν : Type}
    (g : Nat → Int → Source → τ) (m : MeasureRec τ ν) (d : Int) (s : Source) :
    (add_related_time_series g m d s).measure_name = m.measure_name := by
  unfold add_related_time_series
  split <;> rfl

theorem add_related_measure_name_preserves_ts {τ ν : Type}
    (g : Nat → Int → Source → ν) (m : MeasureRec τ ν) (d : Int) (s : Source) :
    (add_related_measure_name g m d s).time_series = m.time_series := by
  unfold add_related_measure_name
  split <;> rfl

/-! ## Claim theorems -/

/-- C2: for every depth D > 0 and every injected collaborator service, the
expansion of an entity never re-traverses the relation equal to the incoming
source tag — an activity execution expanded with source `activity` keeps its
`activity` field untouched (and, being independent of every injected
service, fetches nothing for it), likewise `arrangement`, `participation`
and `experiment`; a measure expanded with source `time-series` keeps
`time_series` untouched and with source `measure-name` keeps `measure_name`
untouched. -/
theorem expansion_never_retraverses_source :
    (∀ (α ε π γ σ : Type) (arrGet : Nat → Int → Source → α)
       (scenGet : Nat → Int → Option (List σ)) (expOf : σ → ε)
       (partGet : Nat → Int → Source → π) (ae : AERec α ε π γ) (y : γ)
       (d : Int), 0 < d →
       (ae_add_related_documents arrGet scenGet expOf partGet ae d
          Source.activity y).activity = ae.activity ∧
       (ae_add_related_documents arrGet scenGet expOf partGet ae d
          Source.arrangement y).arrangement = ae.arrangement ∧
       (ae_add_related_documents arrGet scenGet expOf partGet ae d
          Source.participation y).participations = ae.participations ∧
       (ae_add_related_documents arrGet scenGet expOf partGet ae d
          Source.experiment y).experiments = ae.experiments) ∧
    (∀ (τ ν : Type) (tsGet : Nat → Int → Source → τ)
       (mnGet : Nat → Int → Source → ν) (m : MeasureRec τ ν) (d : Int),
       0 < d →
       (measure_add_related_documents tsGet mnGet m d
          Source.timeSeries).time_series = m.time_series ∧
       (measure_add_related_documents tsGet mnGet m d
          Source.measureName).measure_name = m.measure_name) := by
  constructor
  · intro α ε π γ σ arrGet scenGet expOf partGet ae y d hd
    refine ⟨?_, ?_, ?_, ?_⟩
    · unfold ae_add_related_documents
      rw [if_pos hd, add_activity_sourceMatch,
        (add_related_participations_preserves _ _ _ _).1,
        (add_related_experiments_preserves _ _ _ _ _).1,
        (add_related_arrangement_preserves _ _ _ _).1]
    · unfold ae_add_related_documents
      rw [if_pos hd, (add_activity_preserves _ _ _ _).1,
        (add_related_participations_preserves _ _ _ _).2.1,
        (add_related_experiments_preserves _ _ _ _ _).2.1,
        add_related_arrangement_sourceMatch]
    · unfold ae_add_related_documents
      rw [if_pos hd, (add_activity_preserves _ _ _ _).2.2,
        add_related_participations_sourceMatch,
        (add_related_experiments_preserves _ _ _ _ _).2.2,
        (add_related_arrangement_preserves _ _ _ _).2.2]
    · unfold ae_add_related_documents
      rw [if_pos hd, (add_activity_preserves _ _ _ _).2.1,
        (add_related_participations_preserves _ _ _ _).2.2,
        add_related_experiments_sourceMatch,
        (add_related_arrangement_preserves _ _ _ _).2.1]
  · intro τ ν tsGet mnGet m d hd
    constructor
    · unfold measure_add_related_documents
      rw [if_pos hd, add_related_measure_name_preserves_ts,
        add_related_time_series_sourceMatch]
    · unfold measure_add_related_documents
      rw [if_pos hd, add_related_measure_name_sourceMatch,
        add_related_time_series_preserves_mn]

theorem expansion_never_retraverses_source_witness :
    (0 : Int) < 1 ∧
    (ae_add_related_documents (fun _ _ _ => ())
       (fun _ _ => (none : Option (List Unit))) (fun u => u) (fun _ _ _ => ())
       ({ id := 2, activity_id := some 10, arrangement_id := none } :
         AERec Unit Unit Unit Unit) 1 Source.activity ()).activity =
      ({ id := 2, activity_id := some 10, arrangement_id := none } :
        AERec Unit Unit Unit Unit).activity :=
  ⟨by decide,
    (expansion_never_retraverses_source.1 Unit Unit Unit Unit Unit _ _ _ _
      { id := 2, activity_id := some 10, arrangement_id := none } () 1
      (by decide)).1⟩

/-- C5: a change-order request whose execution id equals its previous id is
rejected with an error output, with no storage write and the store — in
particular every scenario's sequence — unchanged. -/
theorem change_order_rejects_self_reference (db : DB) (oc : OrderChangeIn)
    (h : oc.activity_execution_id = oc.previous_id) :
    change_order db oc =
      ({ errors := some "Given indexes for order change are identical" },
        db, []) := by
  unfold change_order
  rw [if_pos]
  exact h ▸ beq_self_eq_true _

theorem change_order_rejects_self_reference_witness :
    ({ activity_execution_id := 3, previous_id := 3 } :
        OrderChangeIn).activity_execution_id =
      ({ activity_execution_id := 3, previous_id := 3 } :
        OrderChangeIn).previous_id ∧
    change_order dbFix { activity_execution_id := 3, previous_id := 3 } =
      ({ errors := some "Given indexes for order change are identical" },
        dbFix, []) :=
  ⟨rfl, change_order_rejects_self_reference dbFix _ rfl⟩

theorem save_ae_invalid_activity (db : DB) (aein : ActivityExecutionIn)
    (aid : Nat) (h1 : aein.activity_id = some aid)
    (h2 : isFound (getActivityStd db (some aid)) = false) :
    save_activity_execution db aein =
      ({ id := none, errors := some "given activity does not exist" },
        db, []) := by
  simp only [save_activity_execution, h1]
  rw [if_pos ⟨rfl, h2⟩]

theorem save_ae_invalid_arrangement (db : DB) (aein : ActivityExecutionIn)
    (rid : Nat)
    (h0 : ¬(aein.activity_id.isSome ∧
        isFound (getActivityStd db aein.activity_id) = false))
    (h1 : aein.arrangement_id = some rid)
    (h2 : isFound (getArrangementStd db (some rid)) = false) :
    save_activity_execution db aein =
      ({ id := none, errors := some "given arrangement does not exist" },
        db, []) := by
  simp only [save_activity_execution, h1]
  rw [if_neg h0, if_pos ⟨rfl, h2⟩]

/-- C6: `save_activity_execution` returns an error output and performs no
write — in particular never invokes the activity service's embedded-array
insert — when a supplied `activity_id` resolves to no activity, or (the
activity validation passing) when a supplied `arrangement_id` resolves to no
arrangement. -/
theorem save_activity_execution_validates_references (db : DB)
    (aein : ActivityExecutionIn) :
    (∀ aid, aein.activity_id = some aid →
      isFound (getActivityStd db (some aid)) = false →
      save_activity_execution db aein =
        ({ id := none, errors := some "given activity does not exist" },
          db, [])) ∧
    (∀ rid, ¬(aein.activity_id.isSome ∧
        isFound (getActivityStd db aein.activity_id) = false) →
      aein.arrangement_id = some rid →
      isFound (getArrangementStd db (some rid)) = false →
      save_activity_execution db aein =
        ({ id := none, errors := some "given arrangement does not exist" },
          db, [])) :=
  ⟨fun aid h1 h2 => save_ae_invalid_activity db aein aid h1 h2,
   fun rid h0 h1 h2 => save_ae_invalid_arrangement db aein rid h0 h1 h2⟩

theorem save_activity_execution_validates_references_witness :
    ({ activity_id := some 99, arrangement_id := none } :
        ActivityExecutionIn).activity_id = some 99 ∧
    isFound (getActivityStd dbFix (some 99)) = false ∧
    save_activity_execution dbFix { activity_id := some 99, arrangement_id := none } =
      ({ id := none, errors := some "given activity does not exist" },
        dbFix, []) :=
  ⟨rfl, by decide,
    (save_activity_execution_validates_references dbFix _).1 99 rfl (by decide)⟩

/-- C3: evaluation of the mixin `delete` (instantiated for measures) on an id
with no stored document.  The re-fetch returns the `NotFoundByIdModel`
sentinel — which is returned to the caller — but, because the source's guard
tests `existing_document is None` while `get_single` never returns `None`,
the gateway delete call is still issued (here: with the sentinel as its
argument, recorded as `WOp.deleteDocument`), contradicting the claim's "no
delete is issued against storage". -/
theorem generic_delete_issues_delete_for_missing_id :
    getMeasureRecStd dbFix 7 = .notFound { id := some 7 } ∧
    delete_measure dbFix 7 =
      (.notFound { id := some 7 }, dbFix, [WOp.deleteDocument]) :=
  ⟨rfl, rfl⟩

/-- C1 counterexample: a depth-0 scenario read.  The scenario read path's
hydration step (`_change_ids_to_objects`) runs at every depth: at `depth = 0`
the returned scenario already carries fetched activity-execution objects in
place of the raw id list and an attached `experiment` sub-object — the
relation fields do not hold raw identifiers, refuting "adds no related
sub-objects whenever depth ≤ 0" for the scenario hydration step. -/
theorem scenario_read_expands_at_depth_zero :
    get_scenario_by_activity_execution dbFix 2 0 =
      .found { id := 20, experiment_id := some 1,
               activity_executions :=
                 [ .found { id := 2, activity_id := some 10, arrangement_id := none },
                   .found { id := 3, activity_id := some 10, arrangement_id := none },
                   .found { id := 4, activity_id := some 10, arrangement_id := none } ],
               experiment := .found { id := 1 } } := by
  rfl

/-- C1 (amended): the entity-specific expansion hooks
(`_add_related_documents` of the activity-execution, measure, scenario and
dataset services) add nothing whenever `depth ≤ 0`; the scenario hydration
step `_change_ids_to_objects`, by contrast, replaces the id sequence with
fetched objects and attaches the experiment at every depth — including
`depth ≤ 0` — fetching the children at depth `max(depth - 1, 0)`. -/
theorem expansion_hooks_noop_at_nonpositive_depth :
    (∀ (α ε π γ σ : Type) (arrGet : Nat → Int → Source → α)
       (scenGet : Nat → Int → Option (List σ)) (expOf : σ → ε)
       (partGet : Nat → Int → Source → π) (ae : AERec α ε π γ) (y : γ)
       (d : Int) (s : Source), d ≤ 0 →
       ae_add_related_documents arrGet scenGet expOf partGet ae d s y = ae) ∧
    (∀ (τ ν : Type) (tsGet : Nat → Int → Source → τ)
       (mnGet : Nat → Int → Source → ν) (m : MeasureRec τ ν) (d : Int)
       (s : Source), d ≤ 0 →
       measure_add_related_documents tsGet mnGet m d s = m) ∧
    (∀ (s : ScenDoc) (d : Int) (src : Source),
       scenario_add_related_documents s d src = s) ∧
    (∀ (M : Type) (x : M) (d : Int) (src : Source),
       dataset_add_related_documents x d src = x) ∧
    (∀ (E X : Type) (expGet : DB → Option Nat → Int → Source → GetResult E)
       (aeGet : DB → Option Nat → Int → Source → GetResult X) (db : DB)
       (s : ScenDoc) (d : Int),
       (change_ids_to_objects expGet aeGet db s d).experiment =
         expGet db s.experiment_id (max (d - 1) 0) Source.experiment ∧
       (change_ids_to_objects expGet aeGet db s d).activity_executions =
         s.activity_executions.map
           (fun i => aeGet db i (max (d - 1) 0) Source.activityExecution)) := by
  refine ⟨?_, ?_, ?_, ?_, ?_⟩
  · intro α ε π γ σ arrGet scenGet expOf partGet ae y d s hd
    unfold ae_add_related_documents
    rw [if_neg (by omega)]
  · intro τ ν tsGet mnGet m d s hd
    unfold measure_add_related_documents
    rw [if_neg (by omega)]
  · intro s d src
    rfl
  · intro M x d src
    rfl
  · intro E X expGet aeGet db s d
    exact ⟨rfl, rfl⟩

theorem expansion_hooks_noop_at_nonpositive_depth_witness :
    (0 : Int) ≤ 0 ∧
    ae_add_related_documents (fun _ _ _ => ())
      (fun _ _ => (none : Option (List Unit))) (fun u => u) (fun _ _ _ => ())
      ({ id := 2, activity_id := some 10, arrangement_id := none } :
        AERec Unit Unit Unit Unit) 0 Source.empty () =
      { id := 2, activity_id := some 10, arrangement_id := none } :=
  ⟨by decide,
    expansion_hooks_noop_at_nonpositive_depth.1 Unit Unit Unit Unit Unit
      _ _ _ _ { id := 2, activity_id := some 10, arrangement_id := none } ()
      0 Source.empty (by decide)⟩

/-- C7: the mixin `update` does follow the §4.1 contract — a missing id
returns the sentinel with no write (first conjunct) — but
`update_activity_execution` does not: on a nonexistent id the sentinel flows
into the unguarded field merge (second conjunct, evaluated at execution id 9,
absent from `dbFix`) instead of being returned per the contract. -/
theorem update_activity_execution_skips_notfound_check :
    (∀ (M : Type) (getDocument : DB → Nat → GetResult M)
       (hook : M → Int → Source → M)
       (updateDocument : DB → Nat → M → DB × List WOp) (db : DB) (id : Nat)
       (obj : M) (nf : NotFoundByIdModel),
       generic_get_single getDocument hook db id 0 Source.empty = .notFound nf →
       generic_update getDocument hook updateDocument db id obj =
         (.notFound nf, db, [])) ∧
    update_activity_execution dbFix 9 =
      (.mergedOntoSentinel { id := some 9 }, dbFix, []) := by
  constructor
  · intro M getDocument hook updateDocument db id obj nf h
    unfold generic_update
    rw [h]
  · rfl

theorem update_activity_execution_skips_notfound_check_witness :
    generic_get_single getMeasureRecStd measureHookStub dbFix 7 0 Source.empty =
      .notFound { id := some 7 } ∧
    generic_update getMeasureRecStd measureHookStub
      (fun db _ _ => (db, [WOp.updateDocument Source.measure 7])) dbFix 7
      (measureRecOfDoc { id := 7, measure_name_id := none }) =
      (.notFound { id := some 7 }, dbFix, []) :=
  ⟨rfl,
    update_activity_execution_skips_notfound_check.1 _ getMeasureRecStd
      measureHookStub _ dbFix 7 _ _ rfl⟩

/-- C8: on an existing execution, `update_activity_execution_relationships`
errors whenever the new `activity_id` does not resolve (there is no null
guard, so a null `activity_id` also errors), errors on a non-resolving
`arrangement_id` only when one was explicitly supplied, and persists the
merged record through the activity service when both validations pass. -/
theorem update_relationships_validation (db : DB) (aeId : Nat)
    (patch : ActivityExecutionRelationIn) (existing : AERecStd)
    (hex : aeGetStd db (some aeId) 0 Source.empty = .found existing) :
    (isFound (getActivityStd db patch.activity_id) = false →
      update_activity_execution_relationships db aeId patch =
        (.errorOut "given activity does not exist", db, [])) ∧
    (∀ rid, isFound (getActivityStd db patch.activity_id) = true →
      patch.arrangement_id = some rid →
      isFound (getArrangementStd db (some rid)) = false →
      update_activity_execution_relationships db aeId patch =
        (.errorOut "given arrangement does not exist", db, [])) ∧
    (isFound (getActivityStd db patch.activity_id) = true →
      ¬(patch.arrangement_id.isSome ∧
          isFound (getArrangementStd db patch.arrangement_id) = false) →
      update_activity_execution_relationships db aeId patch =
        (.updated { id := existing.id, activity_id := patch.activity_id,
                    arrangement_id := patch.arrangement_id },
          activityUpdateActivityExecution db aeId
            { id := existing.id, activity_id := patch.activity_id,
              arrangement_id := patch.arrangement_id })) := by
  refine ⟨?_, ?_, ?_⟩
  · intro h
    simp only [update_activity_execution_relationships, hex]
    rw [if_pos h]
  · intro rid h1 h2 h3
    simp only [update_activity_execution_relationships, hex, h2]
    rw [if_neg (by simp [h1]), if_pos ⟨rfl, h3⟩]
  · intro h1 h2
    simp only [update_activity_execution_relationships, hex]
    rw [if_neg (by simp [h1]), if_neg h2]

theorem update_relationships_validation_witness :
    aeGetStd dbFix (some 2) 0 Source.empty =
      .found { id := 2, activity_id := some 10, arrangement_id := none } ∧
    isFound (getActivityStd dbFix none) = false ∧
    update_activity_execution_relationships dbFix 2
      { activity_id := none, arrangement_id := none } =
      (.errorOut "given activity does not exist", dbFix, []) :=
  ⟨rfl, rfl, (update_relationships_validation dbFix 2 _ _ rfl).1 rfl⟩

/-- C4: `_put_activity_execution_after_element` resolves `previous_id` first
as an experiment — an experiment match takes priority and inserts the new id
at index 0 of the scenario found by that experiment — and only then as an
activity execution, in which case the id is inserted at
`index(previous_id) + 1`; when neither resolves, the `NotFoundByIdModel`
sentinel is returned and nothing is written.  (The concrete
`[a,b,c] ↦ [a,x,b,c]` instance is in the witness.) -/
theorem put_after_element_resolution (db : DB) (p : Nat) (x : Option Nat) :
    (isFound (getExperimentStd db (some p) 0 Source.empty) = false →
      isFound (aeGetStd db (some p) 0 Source.empty) = false →
      put_activity_execution_after_element db p x =
        (some { id := some p }, db, [])) ∧
    (∀ s rest, isFound (getExperimentStd db (some p) 0 Source.empty) = true →
      db.scenarios.filter (fun t => t.experiment_id == some p) = s :: rest →
      db.scenarios.find? (fun t => t.id == s.id) = some s →
      put_activity_execution_after_element db p x =
        (none,
          updateScenarioDocStd db s.id
            { s with activity_executions := x :: s.activity_executions },
          [WOp.updateDocument Source.scenario s.id])) ∧
    (∀ s rest, isFound (getExperimentStd db (some p) 0 Source.empty) = false →
      isFound (aeGetStd db (some p) 0 Source.empty) = true →
      db.scenarios.filter
          (fun t => t.activity_executions.contains (some p)) = s :: rest →
      db.scenarios.find? (fun t => t.id == s.id) = some s →
      put_activity_execution_after_element db p x =
        (none,
          updateScenarioDocStd db s.id
            { s with activity_executions :=
                (pyInsert s.activity_executions
                  (pyIndex s.activity_executions (some p) + 1) x) },
          [WOp.updateDocument Source.scenario s.id])) := by
  refine ⟨?_, ?_, ?_⟩
  · intro h1 h2
    obtain ⟨nf1, hnf1⟩ := (isFound_eq_false_iff _).mp h1
    obtain ⟨nf2, hnf2⟩ := (isFound_eq_false_iff _).mp h2
    simp only [put_activity_execution_after_element,
      get_scenario_by_element_id, hnf1, hnf2]
  · intro s rest h1 hfilter hfind
    obtain ⟨e, he⟩ := (isFound_eq_true_iff _).mp h1
    simp only [put_activity_execution_after_element,
      get_scenario_by_element_id, he, get_scenario_by_experiment, hfilter,
      changeIdsToObjectsStd, change_ids_to_objects, getScenarioDocStd, hfind,
      pyInsert_zero]
    simp [pyInsert]
  · intro s rest h1 h2 hfilter hfind
    obtain ⟨nf1, hnf1⟩ := (isFound_eq_false_iff _).mp h1
    obtain ⟨ae, hae⟩ := (isFound_eq_true_iff _).mp h2
    simp only [put_activity_execution_after_element,
      get_scenario_by_element_id, hnf1, hae,
      get_scenario_by_activity_execution, hfilter, changeIdsToObjectsStd,
      change_ids_to_objects, getScenarioDocStd, hfind]
    simp

/-- C9: `change_order` is remove-then-insert with no rollback.  For a
non-self-referential request whose execution id lies (once) in exactly one
scenario but whose `previous_id` resolves to neither an experiment nor an
activity execution, the remove step still writes (first conjunct: the write
log holds exactly the removal update — no compensating write follows), the
request still reports success, and afterwards the execution id is absent
from every scenario's sequence. -/
theorem change_order_orphans_execution_without_rollback (db : DB)
    (oc : OrderChangeIn) (s : ScenDoc)
    (hne : oc.activity_execution_id ≠ oc.previous_id)
    (hfilter : db.scenarios.filter
      (fun t => t.activity_executions.contains
        (some oc.activity_execution_id)) = [s])
    (hfind : db.scenarios.find? (fun t => t.id == s.id) = some s)
    (hcount : s.activity_executions.count (some oc.activity_execution_id) = 1)
    (hexp : isFound
      (getExperimentStd db (some oc.previous_id) 0 Source.empty) = false)
    (hae : isFound (aeGetStd db (some oc.previous_id) 0 Source.empty) = false) :
    (change_order db oc).2.2 = [WOp.updateDocument Source.scenario s.id] ∧
    (change_order db oc).1 = { errors := none } ∧
    ∀ t ∈ (change_order db oc).2.1.scenarios,
      (some oc.activity_execution_id) ∉ t.activity_executions := by
  obtain ⟨nf1, hnf1⟩ := (isFound_eq_false_iff _).mp hexp
  obtain ⟨nf2, hnf2⟩ := (isFound_eq_false_iff _).mp hae
  have hdel : delete_activity_execution db oc.activity_execution_id =
      (.aeResult (aeGetStd (updateScenarioDocStd db s.id
          { s with activity_executions :=
              s.activity_executions.erase (some oc.activity_execution_id) })
          (some oc.activity_execution_id) 0 Source.empty),
        updateScenarioDocStd db s.id
          { s with activity_executions :=
              s.activity_executions.erase (some oc.activity_execution_id) },
        [WOp.updateDocument Source.scenario s.id]) := by
    simp only [delete_activity_execution, get_scenario_by_activity_execution,
      hfilter, changeIdsToObjectsStd, change_ids_to_objects,
      getScenarioDocStd, hfind]
  have hput : put_activity_execution_after_element
      (updateScenarioDocStd db s.id
        { s with activity_executions :=
            s.activity_executions.erase (some oc.activity_execution_id) })
      oc.previous_id (some oc.activity_execution_id) =
      (some { id := some oc.previous_id },
        updateScenarioDocStd db s.id
          { s with activity_executions :=
              s.activity_executions.erase (some oc.activity_execution_id) },
        []) := by
    simp only [put_activity_execution_after_element,
      get_scenario_by_element_id, getExperimentStd_update_scenarios,
      aeGetStd_update_scenarios, hnf1, hnf2]
  have hco : change_order db oc =
      ({ errors := none },
        updateScenarioDocStd db s.id
          { s with activity_executions :=
              s.activity_executions.erase (some oc.activity_execution_id) },
        [WOp.updateDocument Source.scenario s.id]) := by
    simp only [change_order]
    rw [if_neg (by simp [hne])]
    simp only [hdel, hput, List.append_nil]
  refine ⟨by rw [hco], by rw [hco], ?_⟩
  rw [hco]
  intro t ht hmem
  simp only [updateScenarioDocStd] at ht
  obtain ⟨t0, ht0, hteq⟩ := List.mem_map.mp ht
  by_cases hid : (t0.id == s.id) = true
  · rw [if_pos hid] at hteq
    rw [← hteq] at hmem
    have h2 : (s.activity_executions.erase
        (some oc.activity_execution_id)).count
        (some oc.activity_execution_id) =
        s.activity_executions.count (some oc.activity_execution_id) - 1 :=
      List.count_erase_self _ _
    rw [hcount] at h2
    exact absurd hmem (List.count_eq_zero.mp h2)
  · rw [if_neg hid] at hteq
    rw [hteq] at ht0 hid
    have hc : t ∈ db.scenarios.filter
        (fun u => u.activity_executions.contains
          (some oc.activity_execution_id)) :=
      List.mem_filter.mpr ⟨ht0, List.elem_eq_true_of_mem hmem⟩
    rw [hfilter] at hc
    have hts : t = s := by simpa using hc
    rw [hts] at hid
    exact hid (beq_self_eq_true _)

theorem change_order_orphans_execution_without_rollback_witness :
    ({ activity_execution_id := 3, previous_id := 77 } :
        OrderChangeIn).activity_execution_id ≠
      ({ activity_execution_id := 3, previous_id := 77 } :
        OrderChangeIn).previous_id ∧
    (change_order dbFix { activity_execution_id := 3, previous_id := 77 }).2.2 =
      [WOp.updateDocument Source.scenario 20] ∧
    ∀ t ∈ (change_order dbFix
        { activity_execution_id := 3, previous_id := 77 }).2.1.scenarios,
      (some 3 : Option Nat) ∉ t.activity_executions := by
  have h := change_order_orphans_execution_without_rollback dbFix
    { activity_execution_id := 3, previous_id := 77 }
    { id := 20, experiment_id := some 1,
      activity_executions := [some 2, some 3, some 4] }
    (by decide) (by decide) (by decide) (by decide) (by decide) (by decide)
  exact ⟨by decide, h.1, h.2.2⟩

theorem put_after_element_resolution_witness :
    isFound (getExperimentStd dbFix (some 2) 0 Source.empty) = false ∧
    isFound (aeGetStd dbFix (some 2) 0 Source.empty) = true ∧
    put_activity_execution_after_element dbFix 2 (some 99) =
      (none,
        { dbFix with scenarios :=
            [ { id := 20, experiment_id := some 1,
                activity_executions := [some 2, some 99, some 3, some 4] } ] },
        [WOp.updateDocument Source.scenario 20]) := by
  refine ⟨by decide, by decide, ?_⟩
  rw [(put_after_element_resolution dbFix 2 (some 99)).2.2
    { id := 20, experiment_id := some 1,
      activity_executions := [some 2, some 3, some 4] } []
    (by decide) (by decide) (by decide) (by decide)]
  decide

/-- C10: `save_scenario` does not validate its embedded activity executions.
When the single embedded execution fails save-time validation (its
`activity_id` resolves to no activity), `save_activity_execution` returns an
error output whose id is null, and `save_scenario` nevertheless creates the
scenario document, persisting that null inside the stored
activity-execution id sequence. -/
theorem save_scenario_stores_null_id_for_invalid_execution (db : DB)
    (scn : ScenarioIn) (aein : ActivityExecutionIn) (aid : Nat)
    (hexp : scn.experiment_id = none)
    (hlist : scn.activity_executions = [aein])
    (hact : aein.activity_id = some aid)
    (hmiss : isFound (getActivityStd db (some aid)) = false) :
    save_scenario db scn =
      (.saved none
          [{ id := none, errors := some "given activity does not exist" }],
        { db with nextId := db.nextId + 1,
                  scenarios := (db.scenarios ++
                    [{ id := db.nextId, experiment_id := none,
                         activity_executions := [none] }]) },
        [WOp.createDocument Source.scenario]) := by
  have hsave := save_ae_invalid_activity db aein aid hact hmiss
  simp only [save_scenario, hexp, hlist]
  rw [if_neg (by simp)]
  simp only [List.foldl, hsave, createScenarioDocStd, List.map,
    List.nil_append]

theorem save_scenario_stores_null_id_for_invalid_execution_witness :
    isFound (getActivityStd dbFix (some 99)) = false ∧
    save_scenario dbFix { experiment_id := none,
                          activity_executions :=
                            [{ activity_id := some 99, arrangement_id := none }] } =
      (.saved none
          [{ id := none, errors := some "given activity does not exist" }],
        { dbFix with nextId := 101,
                     scenarios := (dbFix.scenarios ++
                       [{ id := 100, experiment_id := none,
                            activity_executions := [none] }]) },
        [WOp.createDocument Source.scenario]) := by
  constructor
  · decide
  · rw [save_scenario_stores_null_id_for_invalid_execution dbFix _
      { activity_id := some 99, arrangement_id := none } 99 rfl rfl rfl
      (by decide)]
    decide
